import Mathlib

/-!
Verification of the ccxt-simulator trading engine against its specification.

The Go sources are shallowly embedded: `float64` money/price arithmetic is
modelled exactly over `ℚ` (every operation the engine performs — `+`, `-`,
`*`, `/`, `math.Round` — is rational), Go `int` is `ℤ`, Go strings that are
only compared for equality stay `String`, and byte strings (for the HMAC
signature verifier) are `List ℕ` of byte values.  Fallible Go functions
return `Except TradingError`.  The persistence layer is passed in as explicit
arguments (the looked-up account, position and price) and returned as values.
-/

set_option maxRecDepth 200000

namespace CcxtSim

/-- Position side, from `models.PositionSide` (`LONG`/`SHORT`/`BOTH`). -/
inductive PositionSide
  | long
  | short
  | both
deriving DecidableEq, Repr

/-- Order side, from `models.OrderSide` (`BUY`/`SELL`). -/
inductive OrderSide
  | buy
  | sell
deriving DecidableEq, Repr

/-- Order type, from `models.OrderType`. -/
inductive OrderType
  | market
  | limit
  | stopLoss
  | takeProfit
  | stopMarket
  | trailingStop
deriving DecidableEq, Repr

/-- Order status, from `models.OrderStatus`. -/
inductive OrderStatus
  | new
  | partiallyFilled
  | filled
  | canceled
  | expired
  | rejected
deriving DecidableEq, Repr

/-- Margin mode, from `models.MarginMode` (`cross`/`isolated`). -/
inductive MarginMode
  | cross
  | isolated
deriving DecidableEq, Repr

/-- Trading-engine error values, from the `Err*` variables of
`internal/service/trading_service.go` plus the wrapped price-service error. -/
inductive TradingError
  | insufficientBalance
  | invalidSymbol
  | invalidQuantity
  | invalidLeverage
  | positionNotFound
  | orderNotFound
  | noOpenPosition
  | invalidOrderType
  | priceUnavailable
deriving DecidableEq, Repr

/-- Symbol catalogue entry, from `exchange.SymbolInfo`. -/
structure SymbolInfo where
  symbol : String
  baseAsset : String
  quoteAsset : String
  pricePrecision : ℕ
  quantityPrecision : ℕ
  minQty : ℚ
  maxQty : ℚ
  minNotional : ℚ
  tickSize : ℚ
  stepSize : ℚ
deriving DecidableEq, Repr

/-- Account, from `models.Account` (the fields the engine reads/writes). -/
structure Account where
  balanceUSDT : ℚ
  initialBalance : ℚ
  marginMode : MarginMode
  hedgeMode : Bool
  defaultLeverage : ℤ
  makerFeeRate : ℚ
  takerFeeRate : ℚ
deriving DecidableEq, Repr

/-- Position, from `models.Position`. -/
structure Position where
  symbol : String
  side : PositionSide
  quantity : ℚ
  entryPrice : ℚ
  markPrice : ℚ
  leverage : ℤ
  marginMode : MarginMode
  margin : ℚ
  unrealizedPnL : ℚ
  liquidationPrice : ℚ
  stopLoss : Option ℚ
  takeProfit : Option ℚ
deriving DecidableEq, Repr

/-- Order, from `models.Order` (the engine-relevant fields; rows carry the
resolved order type, while the requests model the Go zero value `""` as
`Option OrderType` being `none`). -/
structure Order where
  symbol : String
  side : OrderSide
  positionSide : PositionSide
  type : OrderType
  quantity : ℚ
  price : ℚ
  stopPrice : ℚ
  filledQty : ℚ
  avgPrice : ℚ
  status : OrderStatus
  reduceOnly : Bool
  closePosition : Bool
deriving DecidableEq, Repr

/-- Trade fill record, from `models.Trade`. -/
structure Trade where
  symbol : String
  side : OrderSide
  quantity : ℚ
  price : ℚ
  fee : ℚ
  feeCurrency : String
  realizedPnL : ℚ
  isMaker : Bool
deriving DecidableEq, Repr

/-- Closed-PnL record, from `models.ClosedPnLRecord`. -/
structure ClosedPnLRecord where
  symbol : String
  side : PositionSide
  quantity : ℚ
  entryPrice : ℚ
  exitPrice : ℚ
  realizedPnL : ℚ
  totalFee : ℚ
  leverage : ℤ
  closedReason : String
deriving DecidableEq, Repr

/-- Slippage constant `defaultSlippage = 0.0001` of `trading_service.go`. -/
def defaultSlippage : ℚ := 0.0001

/-- Go `math.Round`: round half away from zero. -/
def mathRound (x : ℚ) : ℤ :=
  if 0 ≤ x then ⌊x + 1/2⌋ else ⌈x - 1/2⌉

/-- Price rounding, from `TradingService.roundPrice`: round to a multiple of
the tick size when it is positive, otherwise to `pricePrecision` decimals. -/
def roundPrice (price : ℚ) (symbolInfo : SymbolInfo) : ℚ :=
  if 0 < symbolInfo.tickSize then
    (mathRound (price / symbolInfo.tickSize) : ℚ) * symbolInfo.tickSize
  else
    (mathRound (price * 10 ^ symbolInfo.pricePrecision) : ℚ) / 10 ^ symbolInfo.pricePrecision

/-- Liquidation price, from `TradingService.calculateLiquidationPrice`;
the maintenance margin rate is the hard-coded constant `0.004`. -/
def calculateLiquidationPrice (entryPrice : ℚ) (leverage : ℤ) (side : PositionSide) : ℚ :=
  let maintenanceMarginRate : ℚ := 0.004
  if side = PositionSide.long then
    entryPrice * (1 - 1 / (leverage : ℚ) + maintenanceMarginRate)
  else
    entryPrice * (1 + 1 / (leverage : ℚ) - maintenanceMarginRate)

/-- Venue-tiered maintenance margin rate, from the OKX client's
`GetMaintenanceMarginRate` (tiers on the position value). -/
def okxGetMaintenanceMarginRate (positionValue : ℚ) : ℚ :=
  if positionValue ≤ 50000 then 0.004
  else if positionValue ≤ 250000 then 0.005
  else if positionValue ≤ 1000000 then 0.01
  else 0.025

/-- Order side of an open/close, from `TradingService.getSide`. -/
def getSide (positionSide : PositionSide) (isOpen : Bool) : OrderSide :=
  if isOpen then
    if positionSide = PositionSide.long then OrderSide.buy else OrderSide.sell
  else
    if positionSide = PositionSide.long then OrderSide.sell else OrderSide.buy

/-- Leverage resolution, from `TradingService.getLeverage`: the per-account
per-symbol cache entry when present, else the account default. -/
def getLeverage (cachedLeverage : Option ℤ) (defaultLeverage : ℤ) : ℤ :=
  match cachedLeverage with
  | some lev => lev
  | none => defaultLeverage

/-- Trigger predicate of the SL/TP worker, from `SLTPWorker.shouldTrigger`. -/
def shouldTrigger (order : Order) (currentPrice : ℚ) : Bool :=
  if order.stopPrice ≤ 0 then false
  else
    let isStopLoss := order.type = OrderType.stopMarket ∨ order.type = OrderType.stopLoss
    let isTakeProfit := order.type = OrderType.takeProfit
    if isStopLoss ∧ order.positionSide = PositionSide.long then
      decide (currentPrice ≤ order.stopPrice)
    else if isStopLoss ∧ order.positionSide = PositionSide.short then
      decide (currentPrice ≥ order.stopPrice)
    else if isTakeProfit ∧ order.positionSide = PositionSide.long then
      decide (currentPrice ≥ order.stopPrice)
    else if isTakeProfit ∧ order.positionSide = PositionSide.short then
      decide (currentPrice ≤ order.stopPrice)
    else false

/-- Open-position request, from `service.OpenPositionRequest` (the Go
`OrderType ""` zero value is `none`). -/
structure OpenPositionRequest where
  symbol : String
  side : PositionSide
  quantity : ℚ
  leverage : ℤ
  orderType : Option OrderType
  price : ℚ
  stopLoss : Option ℚ
  takeProfit : Option ℚ
  reduceOnly : Bool
deriving DecidableEq, Repr

/-- Close-position request, from `service.ClosePositionRequest`
(`Quantity *float64` is `Option ℚ`, `nil` meaning close all). -/
structure ClosePositionRequest where
  symbol : String
  side : PositionSide
  quantity : Option ℚ
  orderType : Option OrderType
  price : ℚ
deriving DecidableEq, Repr

/-- Result of `TradingService.OpenPosition`: the created order, the fill
(for market orders), the upserted position (absent for limit orders) and the
updated account row. -/
structure OpenResult where
  order : Order
  trade : Option Trade
  position : Option Position
  account : Account
deriving DecidableEq, Repr

/-- Result of `TradingService.ClosePosition`: the close order, its trade,
the closed-PnL record (full close only), the remaining position (partial
close only) and the updated account row. -/
structure CloseResult where
  order : Order
  trade : Trade
  closedPnL : Option ClosedPnLRecord
  position : Option Position
  account : Account
deriving DecidableEq, Repr

/-- Market open execution, from `TradingService.executeOpenOrder`: fill the
order, record the trade, upsert the position under (account, symbol,
positionSide), deduct `margin + fee` from the balance. -/
def executeOpenOrder (order : Order) (account : Account)
    (executionPrice : ℚ) (leverage : ℤ) (fee : ℚ)
    (stopLoss takeProfit : Option ℚ)
    (existingPosition : Option Position) : OpenResult :=
  let positionValue := executionPrice * order.quantity
  let margin := positionValue / (leverage : ℚ)
  let filledOrder := { order with
    status := OrderStatus.filled
    filledQty := order.quantity
    avgPrice := executionPrice }
  let trade : Trade := {
    symbol := order.symbol
    side := order.side
    quantity := order.quantity
    price := executionPrice
    fee := fee
    feeCurrency := "USDT"
    realizedPnL := 0
    isMaker := false }
  let position :=
    match existingPosition with
    | some existing =>
        let totalQty := existing.quantity + order.quantity
        let avgPrice :=
          (existing.entryPrice * existing.quantity + executionPrice * order.quantity) / totalQty
        { existing with
          quantity := totalQty
          entryPrice := avgPrice
          margin := existing.margin + margin
          liquidationPrice := calculateLiquidationPrice avgPrice leverage order.positionSide
          stopLoss := match stopLoss with | some sl => some sl | none => existing.stopLoss
          takeProfit := match takeProfit with | some tp => some tp | none => existing.takeProfit }
    | none =>
        { symbol := order.symbol
          side := order.positionSide
          quantity := order.quantity
          entryPrice := executionPrice
          markPrice := executionPrice
          leverage := leverage
          marginMode := account.marginMode
          margin := margin
          unrealizedPnL := 0
          liquidationPrice := calculateLiquidationPrice executionPrice leverage order.positionSide
          stopLoss := stopLoss
          takeProfit := takeProfit }
  let newAccount := { account with balanceUSDT := account.balanceUSDT - (margin + fee) }
  { order := filledOrder, trade := some trade, position := some position, account := newAccount }

/-- Market/limit open, from `TradingService.OpenPosition`.  The persistence
and price-service lookups are passed in: `symbolInfo?` is the registry
lookup, `currentPrice?` the aggregator price, `cachedLeverage` the leverage
cache entry, `existingPosition` the row found under
(account, symbol, positionSide). -/
def OpenPosition (req : OpenPositionRequest) (account : Account)
    (symbolInfo? : Option SymbolInfo) (currentPrice? : Option ℚ)
    (cachedLeverage : Option ℤ) (existingPosition : Option Position) :
    Except TradingError OpenResult :=
  match symbolInfo? with
  | none => Except.error TradingError.invalidSymbol
  | some symbolInfo =>
    match currentPrice? with
    | none => Except.error TradingError.priceUnavailable
    | some currentPrice =>
      let isMarket := req.orderType = none ∨ req.orderType = some OrderType.market
      let orderType := if isMarket then OrderType.market else req.orderType.getD OrderType.market
      let slippedPrice :=
        if isMarket then
          if req.side = PositionSide.long then currentPrice * (1 + defaultSlippage)
          else currentPrice * (1 - defaultSlippage)
        else if req.orderType = some OrderType.limit then req.price
        else currentPrice
      let executionPrice := roundPrice slippedPrice symbolInfo
      let leverage :=
        if req.leverage = 0 then getLeverage cachedLeverage account.defaultLeverage
        else req.leverage
      if req.quantity < symbolInfo.minQty ∨ symbolInfo.maxQty < req.quantity then
        Except.error TradingError.invalidQuantity
      else
        let positionValue := executionPrice * req.quantity
        let requiredMargin := positionValue / (leverage : ℚ)
        let fee := positionValue * account.takerFeeRate
        if account.balanceUSDT < requiredMargin + fee then
          Except.error TradingError.insufficientBalance
        else
          let order : Order := {
            symbol := req.symbol
            side := getSide req.side true
            positionSide := req.side
            type := orderType
            quantity := req.quantity
            price := req.price
            stopPrice := 0
            filledQty := 0
            avgPrice := 0
            status := OrderStatus.new
            reduceOnly := req.reduceOnly
            closePosition := false }
          if orderType = OrderType.market then
            Except.ok (executeOpenOrder order account executionPrice leverage fee
              req.stopLoss req.takeProfit existingPosition)
          else
            Except.ok { order := order, trade := none, position := none, account := account }

/-- Market close, from `TradingService.ClosePosition`.  `position?` is the
row found under (account, symbol, side); `currentPrice?` the aggregator
price. -/
def ClosePosition (req : ClosePositionRequest) (account : Account)
    (position? : Option Position) (currentPrice? : Option ℚ) :
    Except TradingError CloseResult :=
  match position? with
  | none => Except.error TradingError.noOpenPosition
  | some position =>
    let closeQty? : Except TradingError ℚ :=
      match req.quantity with
      | some q =>
          if 0 < q then
            if position.quantity < q then Except.error TradingError.invalidQuantity
            else Except.ok q
          else Except.ok position.quantity
      | none => Except.ok position.quantity
    match closeQty? with
    | Except.error e => Except.error e
    | Except.ok closeQty =>
      match currentPrice? with
      | none => Except.error TradingError.priceUnavailable
      | some currentPrice =>
        let isMarket := req.orderType = none ∨ req.orderType = some OrderType.market
        let orderType := if isMarket then OrderType.market else req.orderType.getD OrderType.market
        let executionPrice :=
          if isMarket then
            if req.side = PositionSide.long then currentPrice * (1 - defaultSlippage)
            else currentPrice * (1 + defaultSlippage)
          else currentPrice
        let realizedPnL :=
          if position.side = PositionSide.long then
            (executionPrice - position.entryPrice) * closeQty
          else
            (position.entryPrice - executionPrice) * closeQty
        let positionValue := executionPrice * closeQty
        let fee := positionValue * account.takerFeeRate
        let order : Order := {
          symbol := req.symbol
          side := getSide req.side false
          positionSide := req.side
          type := orderType
          quantity := closeQty
          price := req.price
          stopPrice := 0
          filledQty := closeQty
          avgPrice := executionPrice
          status := OrderStatus.filled
          reduceOnly := true
          closePosition := closeQty = position.quantity }
        let trade : Trade := {
          symbol := req.symbol
          side := order.side
          quantity := closeQty
          price := executionPrice
          fee := fee
          feeCurrency := "USDT"
          realizedPnL := realizedPnL
          isMaker := false }
        let marginToReturn := position.margin * (closeQty / position.quantity)
        let fullClose := position.quantity ≤ closeQty
        let closedPnL : Option ClosedPnLRecord :=
          if fullClose then
            some {
              symbol := req.symbol
              side := position.side
              quantity := position.quantity
              entryPrice := position.entryPrice
              exitPrice := executionPrice
              realizedPnL := realizedPnL
              totalFee := fee
              leverage := position.leverage
              closedReason := "manual" }
          else none
        let newPosition : Option Position :=
          if fullClose then none
          else some { position with
            quantity := position.quantity - closeQty
            margin := position.margin - marginToReturn }
        let newAccount :=
          { account with balanceUSDT := account.balanceUSDT + marginToReturn + realizedPnL - fee }
        Except.ok {
          order := order
          trade := trade
          closedPnL := closedPnL
          position := newPosition
          account := newAccount }

/-- Decidable equality for `Except`, used to evaluate the embedded fallible
operations on concrete inputs. -/
instance {ε α : Type} [DecidableEq ε] [DecidableEq α] : DecidableEq (Except ε α) := fun a b =>
  match a, b with
  | Except.ok x, Except.ok y =>
      if h : x = y then Decidable.isTrue (by rw [h]) else Decidable.isFalse (by simp [h])
  | Except.error x, Except.error y =>
      if h : x = y then Decidable.isTrue (by rw [h]) else Decidable.isFalse (by simp [h])
  | Except.ok _, Except.error _ => Decidable.isFalse (by simp)
  | Except.error _, Except.ok _ => Decidable.isFalse (by simp)

/-! Concrete scenario S1 of the specification: a Binance market open-long,
initial balance 10000 USDT, taker rate 4e-4, leverage 10, mark 50000,
quantity 0.01. -/

/-- Symbol-registry entry used by scenario S1 (tick size 0.1). -/
def s1SymbolInfo : SymbolInfo :=
  { symbol := "BTCUSDT", baseAsset := "BTC", quoteAsset := "USDT",
    pricePrecision := 2, quantityPrecision := 3, minQty := 0.001, maxQty := 1000,
    minNotional := 5, tickSize := 0.1, stepSize := 0.001 }

/-- Account row of scenario S1. -/
def s1Account : Account :=
  { balanceUSDT := 10000, initialBalance := 10000, marginMode := MarginMode.cross,
    hedgeMode := false, defaultLeverage := 20, makerFeeRate := 0.0002,
    takerFeeRate := 0.0004 }

/-- Open request of scenario S1. -/
def s1Request : OpenPositionRequest :=
  { symbol := "BTCUSDT", side := PositionSide.long, quantity := 0.01, leverage := 10,
    orderType := none, price := 0, stopLoss := none, takeProfit := none,
    reduceOnly := false }

/-- Position produced by scenario S1 (entry 50005 after slippage and tick
rounding, margin 50.005, liquidation price 45204.52). -/
def s1Position : Position :=
  { symbol := "BTCUSDT", side := PositionSide.long, quantity := 0.01,
    entryPrice := 50005, markPrice := 50005, leverage := 10,
    marginMode := MarginMode.cross, margin := 50.005, unrealizedPnL := 0,
    liquidationPrice := 45204.52, stopLoss := none, takeProfit := none }

/-- Filled order produced by scenario S1. -/
def s1Order : Order :=
  { symbol := "BTCUSDT", side := OrderSide.buy, positionSide := PositionSide.long,
    type := OrderType.market, quantity := 0.01, price := 0, stopPrice := 0,
    filledQty := 0.01, avgPrice := 50005, status := OrderStatus.filled,
    reduceOnly := false, closePosition := false }

/-- Trade record produced by scenario S1. -/
def s1Trade : Trade :=
  { symbol := "BTCUSDT", side := OrderSide.buy, quantity := 0.01, price := 50005,
    fee := 0.20002, feeCurrency := "USDT", realizedPnL := 0, isMaker := false }

/-- Full engine result of scenario S1: balance
10000 − 50.005 − 0.20002 = 9949.79498. -/
def s1Result : OpenResult :=
  { order := s1Order, trade := some s1Trade, position := some s1Position,
    account := { s1Account with balanceUSDT := 9949.79498 } }

/-! Concrete scenario S2 of the specification: partial close of S1's
position, quantity 0.005, at mark 50000. -/

/-- Account row after S1 (balance 9949.79498). -/
def s2Account : Account := { s1Account with balanceUSDT := 9949.79498 }

/-- Close request of scenario S2. -/
def s2Request : ClosePositionRequest :=
  { symbol := "BTCUSDT", side := PositionSide.long, quantity := some 0.005,
    orderType := none, price := 0 }

/-- Close order of scenario S2. -/
def s2Order : Order :=
  { symbol := "BTCUSDT", side := OrderSide.sell, positionSide := PositionSide.long,
    type := OrderType.market, quantity := 0.005, price := 0, stopPrice := 0,
    filledQty := 0.005, avgPrice := 49995, status := OrderStatus.filled,
    reduceOnly := true, closePosition := false }

/-- Trade record of scenario S2. -/
def s2Trade : Trade :=
  { symbol := "BTCUSDT", side := OrderSide.sell, quantity := 0.005, price := 49995,
    fee := 0.09999, feeCurrency := "USDT", realizedPnL := -0.05, isMaker := false }

/-- Engine result of scenario S2: execution price 49995, realised PnL
−0.05, fee 0.09999, returned margin 25.0025, balance 9974.64749. -/
def s2Result : CloseResult :=
  { order := s2Order,
    trade := s2Trade,
    closedPnL := none,
    position := some { s1Position with quantity := 0.005, margin := 25.0025 },
    account := { s1Account with balanceUSDT := 9974.64749 } }

/-- Close request with a negative quantity, exercising the C10 default. -/
def c10Request : ClosePositionRequest :=
  { symbol := "BTCUSDT", side := PositionSide.long, quantity := some (-1),
    orderType := none, price := 0 }

/-! Claim C3: the balance-nonnegativity invariant over engine operations. -/

/-- Engine state for the invariant claim: the account row and at most one
position row (the engine keys positions by (account, symbol, side); one
slot covers single-symbol, single-side histories). -/
structure EngineState where
  account : Account
  position : Option Position
deriving DecidableEq, Repr

/-- Position-row lookup by (symbol, side), mirroring
`GetByAccountIDSymbolAndSide`. -/
def lookupPosition (s : EngineState) (symbol : String) (side : PositionSide) :
    Option Position :=
  match s.position with
  | some pos => if pos.symbol = symbol ∧ pos.side = side then some pos else none
  | none => none

/-- One engine operation: a market open or a market close, together with the
registry entry, mark price and leverage-cache value its call reads. -/
inductive EngineOp
  | openMarket (req : OpenPositionRequest) (info : SymbolInfo) (price : ℚ)
      (cachedLeverage : Option ℤ)
  | closeMarket (req : ClosePositionRequest) (price : ℚ)
deriving Repr

/-- Transition of one engine operation; a failed call leaves the state
unchanged (the service returns before any write). -/
def engineStep (s : EngineState) (op : EngineOp) : EngineState :=
  match op with
  | EngineOp.openMarket req info price cached =>
      match OpenPosition req s.account (some info) (some price) cached
          (lookupPosition s req.symbol req.side) with
      | Except.ok r =>
          { account := r.account,
            position := match r.position with
                        | some pos => some pos
                        | none => s.position }
      | Except.error _ => s
  | EngineOp.closeMarket req price =>
      match ClosePosition req s.account (lookupPosition s req.symbol req.side)
          (some price) with
      | Except.ok r => { account := r.account, position := r.position }
      | Except.error _ => s

/-- Open request of the C3 counterexample: 1 BTC long at 100× leverage. -/
def c3OpenRequest : OpenPositionRequest :=
  { symbol := "BTCUSDT", side := PositionSide.long, quantity := 1, leverage := 100,
    orderType := none, price := 0, stopLoss := none, takeProfit := none,
    reduceOnly := false }

/-- Close request of the C3 counterexample: full close. -/
def c3CloseRequest : ClosePositionRequest :=
  { symbol := "BTCUSDT", side := PositionSide.long, quantity := none,
    orderType := none, price := 0 }

/-- Operation sequence of the C3 counterexample: open at mark 50000, close
at mark 1000. -/
def c3Ops : List EngineOp :=
  [EngineOp.openMarket c3OpenRequest s1SymbolInfo 50000 none,
   EngineOp.closeMarket c3CloseRequest 1000]

/-! Claim C4: transactional atomicity of the trading writes. -/

/-- Persistence snapshot: the rows the trading operations write. -/
structure Store where
  orders : List Order
  trades : List Trade
  positions : List Position
  account : Account
deriving DecidableEq, Repr

/-- Sequential fallible writes exactly as the Go service performs them: each
repository call either succeeds (and the next one runs) or returns an error
and the function aborts — the writes already applied remain in place,
because `OpenPosition`/`ClosePosition` issue the repository calls outside
any transaction (the repository's `UpdateWithLock`, which does open a
`db.Transaction`, is never called by the service).  `failAt = some k` makes
the k-th write fail. -/
def runWrites (writes : List (Store → Store)) (failAt : Option ℕ) (st : Store) :
    Store × Bool :=
  match failAt with
  | none => (writes.foldl (fun s w => w s) st, true)
  | some k =>
      if writes.length ≤ k then (writes.foldl (fun s w => w s) st, true)
      else ((writes.take k).foldl (fun s w => w s) st, false)

/-- Write sequence of a market open, in source order: create the NEW order,
update it to FILLED, create the trade, upsert the position, update the
account balance. -/
def marketOpenWrites (pendingOrder : Order) (r : OpenResult) : List (Store → Store) :=
  [fun st => { st with orders := pendingOrder :: st.orders },
   fun st => { st with orders := r.order :: st.orders.tail },
   fun st => { st with trades := Option.elim r.trade st.trades (fun t => t :: st.trades) },
   fun st => { st with
     positions := Option.elim r.position st.positions (fun pos => pos :: st.positions) },
   fun st => { st with account := r.account }]

/-- Order row as first created (status NEW) in scenario S1. -/
def s1PendingOrder : Order :=
  { s1Order with status := OrderStatus.new, filledQty := 0, avgPrice := 0 }

/-- Empty store holding S1's account row. -/
def s1Store : Store :=
  { orders := [], trades := [], positions := [], account := s1Account }

/-! Claim C6: conditional-order creation never executes. -/

/-- Close/conditional request shape taken by the full engine's close path:
the Bitget `PlacePlanOrder` facade (present in the sources) fills
`StopPrice` and `ReduceOnly`, request fields the engine carries in the full
repository but which are absent from the sources' `ClosePositionRequest`. -/
structure ConditionalCloseRequest where
  symbol : String
  side : PositionSide
  quantity : Option ℚ
  orderType : OrderType
  price : ℚ
  stopPrice : ℚ
  reduceOnly : Bool
deriving DecidableEq, Repr

/-- Modelled from the spec: the conditional-order branch of the trading
engine's close path — the version of `ClosePosition` whose request carries
`StopPrice`/`ReduceOnly` and which the Bitget `PlacePlanOrder` facade
invokes; that branch is missing from the sources (only its caller is
present).  Per §4.4.3/§4.4.4 of the specification, a conditional order type
(`STOP_MARKET`, `STOP_LOSS`, `TAKE_PROFIT`) is persisted in status `NEW`
with `stopPrice` set and `filledQty = 0`; it is not a fill, and creation
performs no position mutation and no balance change; a missing quantity
defaults to a full close of the matching position on trigger. -/
def createConditionalOrder (req : ConditionalCloseRequest) (account : Account)
    (position : Option Position) : Order × Account × Option Position :=
  ({ symbol := req.symbol
     side := getSide req.side false
     positionSide := req.side
     type := req.orderType
     quantity := req.quantity.getD (Option.elim position 0 Position.quantity)
     price := req.price
     stopPrice := req.stopPrice
     filledQty := 0
     avgPrice := 0
     status := OrderStatus.new
     reduceOnly := req.reduceOnly
     closePosition := req.quantity.isNone }, account, position)

/-- Bitget plan-order request, from the `PlacePlanOrder` handler's bound
JSON body (numeric strings already parsed). -/
structure PlanOrderRequest where
  symbol : String
  size : ℚ
  price : ℚ
  side : String
  tradeSide : String
  planType : String
  triggerPrice : ℚ
deriving DecidableEq, Repr

/-- Bitget `PlacePlanOrder` facade, from the handler in the sources: maps
`side` to a position side and `planType` to a conditional order type
(`loss_plan` → STOP_MARKET, `profit_plan` → TAKE_PROFIT, default
STOP_MARKET), then submits a reduce-only conditional close whose stop price
is the trigger price. -/
def PlacePlanOrder (req : PlanOrderRequest) (account : Account)
    (position : Option Position) : Order × Account × Option Position :=
  let posSide := if req.side = "buy" then PositionSide.long else PositionSide.short
  let orderType :=
    if req.planType = "loss_plan" then OrderType.stopMarket
    else if req.planType = "profit_plan" then OrderType.takeProfit
    else OrderType.stopMarket
  createConditionalOrder
    { symbol := req.symbol
      side := posSide
      quantity := some req.size
      orderType := orderType
      price := req.price
      stopPrice := req.triggerPrice
      reduceOnly := true }
    account position

/-! Claim C9: OKX signature verification.  The verifier composes Go's
`crypto/hmac`, `crypto/sha256` and `encoding/base64`; those primitives are
embedded bit-exactly over byte lists (`List ℕ`, each element a byte
value), with 32-bit words as naturals reduced mod 2^32. -/

/-- Byte strings (Go strings/byte slices) as lists of byte values. -/
abbrev Bytes := List ℕ

/-- Truncation to a 32-bit word. -/
def w32 (x : ℕ) : ℕ := x % 4294967296

/-- 32-bit addition. -/
def add32 (a b : ℕ) : ℕ := w32 (a + b)

/-- 32-bit right rotation. -/
def rotr32 (n x : ℕ) : ℕ := w32 ((x >>> n) ||| (x <<< (32 - n)))

/-- SHA-256 choice function. -/
def shaCh (x y z : ℕ) : ℕ := (x &&& y) ^^^ ((x ^^^ 4294967295) &&& z)

/-- SHA-256 majority function. -/
def shaMaj (x y z : ℕ) : ℕ := (x &&& y) ^^^ (x &&& z) ^^^ (y &&& z)

/-- SHA-256 big sigma 0. -/
def bigSigma0 (x : ℕ) : ℕ := rotr32 2 x ^^^ rotr32 13 x ^^^ rotr32 22 x

/-- SHA-256 big sigma 1. -/
def bigSigma1 (x : ℕ) : ℕ := rotr32 6 x ^^^ rotr32 11 x ^^^ rotr32 25 x

/-- SHA-256 small sigma 0. -/
def smallSigma0 (x : ℕ) : ℕ := rotr32 7 x ^^^ rotr32 18 x ^^^ (x >>> 3)

/-- SHA-256 small sigma 1. -/
def smallSigma1 (x : ℕ) : ℕ := rotr32 17 x ^^^ rotr32 19 x ^^^ (x >>> 10)

/-- SHA-256 round constants (FIPS 180-4, as decimal words). -/
def shaK : List ℕ :=
  [1116352408, 1899447441, 3049323471, 3921009573, 961987163, 1508970993,
   2453635748, 2870763221, 3624381080, 310598401, 607225278, 1426881987,
   1925078388, 2162078206, 2614888103, 3248222580, 3835390401, 4022224774,
   264347078, 604807628, 770255983, 1249150122, 1555081692, 1996064986,
   2554220882, 2821834349, 2952996808, 3210313671, 3336571891, 3584528711,
   113926993, 338241895, 666307205, 773529912, 1294757372, 1396182291,
   1695183700, 1986661051, 2177026350, 2456956037, 2730485921, 2820302411,
   3259730800, 3345764771, 3516065817, 3600352804, 4094571909, 275423344,
   430227734, 506948616, 659060556, 883997877, 958139571, 1322822218,
   1537002063, 1747873779, 1955562222, 2024104815, 2227730452, 2361852424,
   2428436474, 2756734187, 3204031479, 3329325298]

/-- SHA-256 working state (eight 32-bit words). -/
structure ShaState where
  a : ℕ
  b : ℕ
  c : ℕ
  d : ℕ
  e : ℕ
  f : ℕ
  g : ℕ
  h : ℕ
deriving DecidableEq, Repr

/-- SHA-256 initial hash value (FIPS 180-4, as decimal words). -/
def shaInit : ShaState :=
  ⟨1779033703, 3144134277, 1013904242, 2773480762,
   1359893119, 2600822924, 528734635, 1541459225⟩

/-- One SHA-256 compression round. -/
def compressStep (st : ShaState) (k w : ℕ) : ShaState :=
  let t1 := w32 (st.h + bigSigma1 st.e + shaCh st.e st.f st.g + k + w)
  let t2 := w32 (bigSigma0 st.a + shaMaj st.a st.b st.c)
  ⟨add32 t1 t2, st.a, st.b, st.c, add32 st.d t1, st.e, st.f, st.g⟩

/-- Message-schedule extension: append `n` further schedule words. -/
def extendSchedule (ws : List ℕ) : ℕ → List ℕ
  | 0 => ws
  | n + 1 =>
      extendSchedule
        (ws ++ [w32 (smallSigma1 (ws.getD (ws.length - 2) 0) +
          ws.getD (ws.length - 7) 0 +
          smallSigma0 (ws.getD (ws.length - 15) 0) +
          ws.getD (ws.length - 16) 0)]) n

/-- One SHA-256 block compression (16 message words in). -/
def compressBlock (hs : ShaState) (block : List ℕ) : ShaState :=
  let ws := extendSchedule block 48
  let st := (shaK.zip ws).foldl (fun s kw => compressStep s kw.1 kw.2) hs
  ⟨add32 hs.a st.a, add32 hs.b st.b, add32 hs.c st.c, add32 hs.d st.d,
   add32 hs.e st.e, add32 hs.f st.f, add32 hs.g st.g, add32 hs.h st.h⟩

/-- Big-endian 64-bit length encoding. -/
def be64 (n : ℕ) : Bytes :=
  [n >>> 56 % 256, n >>> 48 % 256, n >>> 40 % 256, n >>> 32 % 256,
   n >>> 24 % 256, n >>> 16 % 256, n >>> 8 % 256, n % 256]

/-- SHA-256 padding: append `0x80`, zeros to 56 mod 64, and the bit length
as a big-endian 64-bit integer. -/
def padMessage (msg : Bytes) : Bytes :=
  msg ++ 128 :: List.replicate ((119 - msg.length % 64) % 64) 0 ++ be64 (8 * msg.length)

/-- Big-endian 32-bit words from bytes. -/
def bytesToWords : Bytes → List ℕ
  | a :: b :: c :: d :: rest => (((a * 256 + b) * 256 + c) * 256 + d) :: bytesToWords rest
  | _ => []

/-- Split a word list into 16-word blocks. -/
def chunkWords (l : List ℕ) : List (List ℕ) :=
  match l with
  | [] => []
  | w :: ws => (w :: ws.take 15) :: chunkWords (ws.drop 15)
termination_by l.length
decreasing_by simp [List.length_drop]; omega

/-- Big-endian bytes of a 32-bit word. -/
def wordToBytes (w : ℕ) : Bytes :=
  [w >>> 24 % 256, w >>> 16 % 256, w >>> 8 % 256, w % 256]

/-- SHA-256 of a byte string. -/
def sha256 (msg : Bytes) : Bytes :=
  let blocks := chunkWords (bytesToWords (padMessage msg))
  let final := blocks.foldl compressBlock shaInit
  wordToBytes final.a ++ wordToBytes final.b ++ wordToBytes final.c ++
    wordToBytes final.d ++ wordToBytes final.e ++ wordToBytes final.f ++
    wordToBytes final.g ++ wordToBytes final.h

/-- HMAC-SHA256, from Go's `crypto/hmac` over `sha256.New` (block size 64). -/
def hmacSha256 (key msg : Bytes) : Bytes :=
  let key0 := if 64 < key.length then sha256 key else key
  let keyPad := key0 ++ List.replicate (64 - key0.length) 0
  let ipad := keyPad.map (fun b => b ^^^ 54)
  let opad := keyPad.map (fun b => b ^^^ 92)
  sha256 (opad ++ sha256 (ipad ++ msg))

/-- Standard base64 alphabet as byte values. -/
def base64Alphabet : Bytes :=
  [65, 66, 67, 68, 69, 70, 71, 72, 73, 74, 75, 76, 77, 78, 79, 80, 81, 82,
   83, 84, 85, 86, 87, 88, 89, 90, 97, 98, 99, 100, 101, 102, 103, 104, 105,
   106, 107, 108, 109, 110, 111, 112, 113, 114, 115, 116, 117, 118, 119, 120,
   121, 122, 48, 49, 50, 51, 52, 53, 54, 55, 56, 57, 43, 47]

/-- One base64 alphabet character. -/
def b64c (n : ℕ) : ℕ := base64Alphabet.getD n 65

/-- Standard base64 encoding with `=` (byte 61) padding, from Go's
`encoding/base64.StdEncoding`. -/
def base64Encode : Bytes → Bytes
  | [] => []
  | [a] => [b64c (a >>> 2), b64c ((a % 4) <<< 4), 61, 61]
  | [a, b] => [b64c (a >>> 2), b64c ((a % 4) <<< 4 ||| (b >>> 4)), b64c ((b % 16) <<< 2), 61]
  | a :: b :: c :: rest =>
      b64c (a >>> 2) :: b64c ((a % 4) <<< 4 ||| (b >>> 4)) ::
        b64c ((b % 16) <<< 2 ||| (c >>> 6)) :: b64c (c &&& 63) :: base64Encode rest

/-- OKX-facade request as the verifier reads it: method, URL path, raw
query, body, and the `OK-ACCESS-SIGN` / `OK-ACCESS-TIMESTAMP` headers, all
as byte strings. -/
structure OKXRequest where
  method : Bytes
  path : Bytes
  rawQuery : Bytes
  body : Bytes
  sign : Bytes
  timestamp : Bytes
deriving DecidableEq, Repr

/-- Byte string "POST". -/
def postBytes : Bytes := [80, 79, 83, 84]

/-- Byte string "PUT". -/
def putBytes : Bytes := [80, 85, 84]

/-- Request path as signed: the URL path, plus `?` (byte 63) and the raw
query when a query is present — from `verifyOKXSignature`. -/
def okxRequestPath (r : OKXRequest) : Bytes :=
  if r.rawQuery = [] then r.path else r.path ++ 63 :: r.rawQuery

/-- Body as signed: included only for POST and PUT — from
`verifyOKXSignature`. -/
def okxBody (r : OKXRequest) : Bytes :=
  if r.method = postBytes ∨ r.method = putBytes then r.body else []

/-- OKX prehash string `timestamp + method + requestPath + body`, from
`verifyOKXSignature`. -/
def okxPrehash (r : OKXRequest) : Bytes :=
  r.timestamp ++ r.method ++ okxRequestPath r ++ okxBody r

/-- OKX signature verification, from `verifyOKXSignature`: reject an empty
header, else compare the header byte-for-byte (`hmac.Equal`) against
`base64(HMAC-SHA256(secret, prehash))`. -/
def verifyOKXSignature (r : OKXRequest) (apiSecret : Bytes) : Bool :=
  if r.sign = [] then false
  else r.sign = base64Encode (hmacSha256 apiSecret (okxPrehash r))


/-! The claims, settled against the embedding above. -/

/-! Claim C7: the worker's trigger condition table. -/

/-- C7.  For every pending conditional order and every current price,
`shouldTrigger` fires exactly under the spec's condition table: a stop-loss
(`STOP_MARKET`/`STOP_LOSS`) on position side LONG fires iff `price ≤
stopPrice`, a stop-loss on SHORT iff `price ≥ stopPrice`, a take-profit on
LONG iff `price ≥ stopPrice`, a take-profit on SHORT iff
`price ≤ stopPrice`; orders with `stopPrice ≤ 0` or any other type/side
combination never fire. -/
theorem c7_trigger_condition_table (order : Order) (price : ℚ) :
    shouldTrigger order price = true ↔
      0 < order.stopPrice ∧
        (((order.type = OrderType.stopMarket ∨ order.type = OrderType.stopLoss) ∧
            order.positionSide = PositionSide.long ∧ price ≤ order.stopPrice) ∨
         ((order.type = OrderType.stopMarket ∨ order.type = OrderType.stopLoss) ∧
            order.positionSide = PositionSide.short ∧ order.stopPrice ≤ price) ∨
         (order.type = OrderType.takeProfit ∧ order.positionSide = PositionSide.long ∧
            order.stopPrice ≤ price) ∨
         (order.type = OrderType.takeProfit ∧ order.positionSide = PositionSide.short ∧
            price ≤ order.stopPrice)) := by
  unfold shouldTrigger
  rcases order with ⟨sym, side, posSide, otype, qty, prc, sp, fq, ap, st, ro, cp⟩
  simp only
  by_cases hsp : sp ≤ 0
  · simp only [if_pos hsp]
    constructor
    · intro h; exact absurd h (by simp)
    · rintro ⟨h0, -⟩; exact absurd hsp (not_le.mpr h0)
  · simp only [if_neg hsp]
    have h0 : 0 < sp := lt_of_not_le hsp
    cases otype <;> cases posSide <;>
      simp [h0, ge_iff_le]

/-! Claim C8: the stored liquidation price. -/

/-- C8 counterexample: the claim says the stored liquidation price uses the
venue-tiered maintenance margin rate; at entry 300000, leverage 10,
quantity 1 the tiered rate is 0.01 while `calculateLiquidationPrice` always
uses the constant 0.004, so the two formulas disagree. -/
theorem c8_counterexample :
    calculateLiquidationPrice 300000 10 PositionSide.long ≠
      300000 * (1 - 1/10 + okxGetMaintenanceMarginRate (300000 * 1)) := by
  norm_num [calculateLiquidationPrice, okxGetMaintenanceMarginRate]

/-- C8 amended.  For every position created by a successful market open on a
fresh (account, symbol, side) slot, the stored liquidation price equals
`entry · (1 − 1/L + m)` for LONG and `entry · (1 + 1/L − m)` for SHORT with
the constant maintenance margin rate `m = 0.004` — the venue-tiered
`GetMaintenanceMarginRate` is never consulted by the engine; in particular
S1's position (entry 50005, leverage 10) stores
`50005 · 0.904 = 45204.52`. -/
theorem c8_liquidation_price_constant_rate (req : OpenPositionRequest) (account : Account)
    (info : SymbolInfo) (p : ℚ) (cached : Option ℤ) (r : OpenResult) (pos : Position)
    (hok : OpenPosition req account (some info) (some p) cached none = Except.ok r)
    (hpos : r.position = some pos) :
    pos.liquidationPrice = calculateLiquidationPrice pos.entryPrice pos.leverage pos.side ∧
    (pos.side = PositionSide.long →
      calculateLiquidationPrice pos.entryPrice pos.leverage pos.side
        = pos.entryPrice * (1 - 1 / (pos.leverage : ℚ) + 0.004)) ∧
    (pos.side ≠ PositionSide.long →
      calculateLiquidationPrice pos.entryPrice pos.leverage pos.side
        = pos.entryPrice * (1 + 1 / (pos.leverage : ℚ) - 0.004)) ∧
    calculateLiquidationPrice 50005 10 PositionSide.long = 45204.52 := by
  refine ⟨?_, fun h => by simp [calculateLiquidationPrice, h],
    fun h => by simp [calculateLiquidationPrice, h],
    by norm_num [calculateLiquidationPrice]⟩
  unfold OpenPosition at hok
  simp only at hok
  split_ifs at hok
  all_goals
    injection hok with h
    subst h
    simp only [executeOpenOrder, Option.some.injEq] at hpos
  all_goals try exact Option.noConfusion hpos
  all_goals
    subst hpos
    rfl

/-! Claim C10: close-quantity defaulting and rejection. -/

/-- C10.  For every close of an existing position at an available price, a
missing, zero or negative requested quantity is treated as a full close of
the entire position quantity, and `InvalidQuantity` is returned exactly when
the requested quantity is positive and strictly exceeds the position
quantity — an over-sized request is rejected, never clamped down. -/
theorem c10_close_quantity_defaulting (req : ClosePositionRequest) (account : Account)
    (position : Position) (p : ℚ) :
    (ClosePosition req account (some position) (some p) =
        Except.error TradingError.invalidQuantity ↔
      ∃ q, req.quantity = some q ∧ 0 < q ∧ position.quantity < q) ∧
    ((req.quantity = none ∨ ∃ q, req.quantity = some q ∧ q ≤ 0) →
      Except.map (fun r => (r.order.quantity, r.position))
          (ClosePosition req account (some position) (some p)) =
        Except.ok (position.quantity, none)) := by
  constructor
  · cases hq : req.quantity with
    | none => simp [ClosePosition, hq]
    | some q =>
      by_cases h1 : 0 < q
      · by_cases h2 : position.quantity < q
        · simp only [ClosePosition, hq, if_pos h1, if_pos h2]
          simp only [Except.error.injEq, true_iff, iff_true]
          exact ⟨q, rfl, h1, h2⟩
        · simp only [ClosePosition, hq, if_pos h1, if_neg h2]
          constructor
          · intro h; exact absurd h (by simp)
          · rintro ⟨q', hq', -, hlt⟩
            injection hq' with h
            subst h
            exact absurd hlt h2
      · simp only [ClosePosition, hq, if_neg h1]
        constructor
        · intro h; exact absurd h (by simp)
        · rintro ⟨q', hq', hpos, -⟩
          injection hq' with h
          subst h
          exact absurd hpos h1
  · rintro (hq | ⟨q, hq, hle⟩)
    · simp [ClosePosition, hq, Except.map, le_refl]
    · simp [ClosePosition, hq, not_lt.mpr hle, Except.map, le_refl]

/-! Claim C2: market-close accounting. -/

/-- C2.  For every market close of an existing position at mark price `p`
with requested quantity `c`, `0 < c ≤ position.quantity`: the execution
price is `p·(1 − s)` when closing LONG and `p·(1 + s)` when closing SHORT
(`s = 1e-4`); realised PnL is `(exec − entry)·c` for LONG and
`(entry − exec)·c` for SHORT; the fee is `exec·c·takerRate`; and the balance
becomes exactly `balance + returnedMargin + PnL − fee` with
`returnedMargin = position.margin · c / position.quantity`. -/
theorem c2_market_close_accounting (req : ClosePositionRequest) (account : Account)
    (position : Position) (p c : ℚ)
    (hside : position.side = req.side)
    (hmkt : req.orderType = none ∨ req.orderType = some OrderType.market)
    (hqty : req.quantity = some c) (hc : 0 < c) (hcle : c ≤ position.quantity) :
    Except.map
        (fun r => (r.order.avgPrice, r.trade.realizedPnL, r.trade.fee, r.account.balanceUSDT))
        (ClosePosition req account (some position) (some p)) =
      Except.ok
        (if req.side = PositionSide.long then p * (1 - defaultSlippage)
           else p * (1 + defaultSlippage),
         if req.side = PositionSide.long then
           (p * (1 - defaultSlippage) - position.entryPrice) * c
         else
           (position.entryPrice - p * (1 + defaultSlippage)) * c,
         (if req.side = PositionSide.long then p * (1 - defaultSlippage)
            else p * (1 + defaultSlippage)) * c * account.takerFeeRate,
         account.balanceUSDT + position.margin * (c / position.quantity) +
           (if req.side = PositionSide.long then
              (p * (1 - defaultSlippage) - position.entryPrice) * c
            else
              (position.entryPrice - p * (1 + defaultSlippage)) * c) -
           (if req.side = PositionSide.long then p * (1 - defaultSlippage)
              else p * (1 + defaultSlippage)) * c * account.takerFeeRate) := by
  have hnlt : ¬ position.quantity < c := not_lt.mpr hcle
  rcases hmkt with hm | hm <;>
    by_cases hlong : req.side = PositionSide.long <;>
      simp [ClosePosition, Except.map, hqty, hc, hm, hside, hlong, hnlt,
        Prod.ext_iff, Except.ok.injEq]

/-! Claim C5: full close vs partial close bookkeeping. -/

/-- C5.  For every successful close: a ClosedPnL record is produced iff the
position row is deleted; when the close quantity equals the position
quantity, exactly one record is appended with reason `manual` and the
position is deleted; otherwise quantity and margin are decremented
proportionally while the entry price and the stop-loss/take-profit levels
are left intact. -/
theorem c5_close_record_iff_full (req : ClosePositionRequest) (account : Account)
    (position : Position) (p : ℚ) (r : CloseResult)
    (hok : ClosePosition req account (some position) (some p) = Except.ok r) :
    (r.closedPnL.isSome ↔ r.position = none) ∧
    (r.order.quantity = position.quantity →
      Option.map (fun rec => rec.closedReason) r.closedPnL = some "manual" ∧
      r.position = none) ∧
    (r.order.quantity ≠ position.quantity →
      r.closedPnL = none ∧
      Option.map Position.quantity r.position = some (position.quantity - r.order.quantity) ∧
      Option.map Position.margin r.position =
        some (position.margin - position.margin * (r.order.quantity / position.quantity)) ∧
      Option.map Position.entryPrice r.position = some position.entryPrice ∧
      Option.map Position.stopLoss r.position = some position.stopLoss ∧
      Option.map Position.takeProfit r.position = some position.takeProfit) := by
  cases hqo : req.quantity with
  | none =>
    simp only [ClosePosition, hqo] at hok
    injection hok with h
    subst h
    exact ⟨by simp, fun _ => by simp, fun hne => absurd rfl hne⟩
  | some q =>
    by_cases h1 : 0 < q
    · by_cases h2 : position.quantity < q
      · simp [ClosePosition, hqo, if_pos h1, if_pos h2] at hok
      · simp only [ClosePosition, hqo, if_pos h1, if_neg h2] at hok
        injection hok with h
        subst h
        by_cases h3 : position.quantity ≤ q
        · have hqe : q = position.quantity := le_antisymm (not_lt.mp h2) h3
          exact ⟨by simp [h3], fun _ => by simp [h3], fun hne => absurd hqe hne⟩
        · exact ⟨by simp [h3], fun he => absurd (he ▸ le_refl q) h3,
            fun _ => by simp [h3]⟩
    · simp only [ClosePosition, hqo, if_neg h1] at hok
      injection hok with h
      subst h
      exact ⟨by simp, fun _ => by simp, fun hne => absurd rfl hne⟩

/-- C2 witness: scenario S2 instantiated — close 0.005 of S1's position at
mark 50000 executes at 49995, realises −0.05, pays fee 0.09999 and leaves
balance 9974.64749 ≈ 9974.648. -/
theorem c2_market_close_accounting_witness :
    Except.map
        (fun r => (r.order.avgPrice, r.trade.realizedPnL, r.trade.fee, r.account.balanceUSDT))
        (ClosePosition s2Request s2Account (some s1Position) (some 50000)) =
      Except.ok (49995, -0.05, 0.09999, 9974.64749) := by
  have h := c2_market_close_accounting s2Request s2Account s1Position 50000 0.005
    (by with_unfolding_all rfl) (Or.inl rfl) rfl
    (by with_unfolding_all decide) (by with_unfolding_all decide)
  rw [h]
  with_unfolding_all rfl

/-- C5 witness: the theorem applied to scenario S2's partial close — no
record is appended, the position row survives with quantity 0.005, margin
25.0025 and entry price unchanged. -/
theorem c5_close_record_iff_full_witness :
    (s2Result.closedPnL.isSome ↔ s2Result.position = none) ∧
    s2Result.closedPnL = none := by
  have h := c5_close_record_iff_full s2Request s2Account s1Position 50000 s2Result
    (by with_unfolding_all rfl)
  exact ⟨h.1, (h.2.2 (by with_unfolding_all decide)).1⟩

/-- C8 witness: the amended statement instantiated at scenario S1 — the
stored liquidation price of S1's position is
`calculateLiquidationPrice 50005 10 LONG = 45204.52`. -/
theorem c8_liquidation_price_constant_rate_witness :
    s1Position.liquidationPrice =
        calculateLiquidationPrice s1Position.entryPrice s1Position.leverage s1Position.side ∧
    calculateLiquidationPrice 50005 10 PositionSide.long = 45204.52 := by
  have h := c8_liquidation_price_constant_rate s1Request s1Account s1SymbolInfo 50000 none
    s1Result s1Position (by with_unfolding_all rfl) (by with_unfolding_all rfl)
  exact ⟨h.1, h.2.2.2⟩

/-- C10 witness: a close request for quantity −1 on S1's position is
treated as a full close of the whole 0.01. -/
theorem c10_close_quantity_defaulting_witness :
    Except.map (fun r => (r.order.quantity, r.position))
        (ClosePosition c10Request s2Account (some s1Position) (some 50000)) =
      Except.ok (s1Position.quantity, none) := by
  exact (c10_close_quantity_defaulting c10Request s2Account s1Position 50000).2
    (Or.inr ⟨-1, rfl, by with_unfolding_all decide⟩)

/-! Claim C1: market-open pricing, margin, fee, rejection and balance. -/

/-- C1.  For every market open request whose symbol resolves, whose mark
price `p` is available and whose quantity passes the registry bounds: the
fill price is `p·(1 + s)` for LONG and `p·(1 − s)` for SHORT (`s = 1e-4`)
rounded to tick size; margin is `exec·q/leverage` and the fee
`exec·q·takerRate`; `InsufficientBalance` is returned exactly when
`balance < margin + fee`; on success the order is FILLED at `exec` and the
balance decreases by exactly `margin + fee`; a fresh position stores entry
price `exec` and the computed margin. -/
theorem c1_market_open_pricing (req : OpenPositionRequest) (account : Account)
    (info : SymbolInfo) (p : ℚ) (cached : Option ℤ) (existing : Option Position)
    (hmkt : req.orderType = none ∨ req.orderType = some OrderType.market)
    (hqty : info.minQty ≤ req.quantity ∧ req.quantity ≤ info.maxQty) :
    (OpenPosition req account (some info) (some p) cached existing =
        Except.error TradingError.insufficientBalance ↔
      account.balanceUSDT <
        roundPrice (if req.side = PositionSide.long then p * (1 + defaultSlippage)
            else p * (1 - defaultSlippage)) info * req.quantity /
          ((if req.leverage = 0 then getLeverage cached account.defaultLeverage
              else req.leverage : ℤ) : ℚ) +
        roundPrice (if req.side = PositionSide.long then p * (1 + defaultSlippage)
            else p * (1 - defaultSlippage)) info * req.quantity * account.takerFeeRate) ∧
    (¬ account.balanceUSDT <
        roundPrice (if req.side = PositionSide.long then p * (1 + defaultSlippage)
            else p * (1 - defaultSlippage)) info * req.quantity /
          ((if req.leverage = 0 then getLeverage cached account.defaultLeverage
              else req.leverage : ℤ) : ℚ) +
        roundPrice (if req.side = PositionSide.long then p * (1 + defaultSlippage)
            else p * (1 - defaultSlippage)) info * req.quantity * account.takerFeeRate →
      Except.map (fun r => (r.order.status, r.order.avgPrice, r.account.balanceUSDT))
          (OpenPosition req account (some info) (some p) cached existing) =
        Except.ok (OrderStatus.filled,
          roundPrice (if req.side = PositionSide.long then p * (1 + defaultSlippage)
              else p * (1 - defaultSlippage)) info,
          account.balanceUSDT -
            (roundPrice (if req.side = PositionSide.long then p * (1 + defaultSlippage)
                else p * (1 - defaultSlippage)) info * req.quantity /
              ((if req.leverage = 0 then getLeverage cached account.defaultLeverage
                  else req.leverage : ℤ) : ℚ) +
             roundPrice (if req.side = PositionSide.long then p * (1 + defaultSlippage)
                else p * (1 - defaultSlippage)) info * req.quantity * account.takerFeeRate)) ∧
      (existing = none →
        Except.map (fun r => Option.map (fun pos => (pos.entryPrice, pos.margin)) r.position)
            (OpenPosition req account (some info) (some p) cached existing) =
          Except.ok (some
            (roundPrice (if req.side = PositionSide.long then p * (1 + defaultSlippage)
                else p * (1 - defaultSlippage)) info,
             roundPrice (if req.side = PositionSide.long then p * (1 + defaultSlippage)
                else p * (1 - defaultSlippage)) info * req.quantity /
              ((if req.leverage = 0 then getLeverage cached account.defaultLeverage
                  else req.leverage : ℤ) : ℚ))))) := by
  have hq' : ¬ (req.quantity < info.minQty ∨ info.maxQty < req.quantity) := by
    simp only [not_or, not_lt]
    exact hqty
  constructor
  · simp only [OpenPosition, if_pos hmkt, if_neg hq']
    split_ifs <;> simp_all [not_lt]
  · intro hb
    constructor
    · simp only [OpenPosition, if_pos hmkt, if_neg hq', if_neg hb]
      simp [executeOpenOrder, Except.map]
    · intro hex
      subst hex
      simp only [OpenPosition, if_pos hmkt, if_neg hq', if_neg hb]
      simp [executeOpenOrder, Except.map]

/-- C1 witness: scenario S1 — the quantity passes the bounds, the balance
check passes (50.005 + 0.20002 ≤ 10000), the fill is FILLED at 50005, the
balance becomes 9949.79498 ≈ 9949.795, and the fresh position stores entry
50005 and margin 50.005. -/
theorem c1_market_open_pricing_witness :
    Except.map (fun r => (r.order.status, r.order.avgPrice, r.account.balanceUSDT))
        (OpenPosition s1Request s1Account (some s1SymbolInfo) (some 50000) none none) =
      Except.ok (OrderStatus.filled, 50005, 9949.79498) ∧
    Except.map (fun r => Option.map (fun pos => (pos.entryPrice, pos.margin)) r.position)
        (OpenPosition s1Request s1Account (some s1SymbolInfo) (some 50000) none none) =
      Except.ok (some (50005, 50.005)) := by
  have h := (c1_market_open_pricing s1Request s1Account s1SymbolInfo 50000 none none
    (Or.inl rfl) (by with_unfolding_all decide)).2 (by with_unfolding_all decide)
  refine ⟨?_, ?_⟩
  · rw [h.1]
    with_unfolding_all rfl
  · rw [h.2 rfl]
    with_unfolding_all rfl

/-- C3 counterexample: starting from a balance of 10000 ≥ 0, opening 1 BTC
long at 100× leverage at mark 50000 and closing it at mark 1000 leaves the
account balance negative (−39025.50196): the close path credits
`returnedMargin + realisedPnL − fee` with no floor at zero. -/
theorem c3_counterexample :
    0 ≤ (EngineState.mk s1Account none).account.balanceUSDT ∧
    (c3Ops.foldl engineStep (EngineState.mk s1Account none)).account.balanceUSDT < 0 := by
  constructor
  · with_unfolding_all decide
  · with_unfolding_all decide

/-- Balance-nonnegativity is preserved by any open call (helper for the
amended C3). -/
theorem openPosition_balance_nonneg (req : OpenPositionRequest) (account : Account)
    (info? : Option SymbolInfo) (p? : Option ℚ) (cached : Option ℤ)
    (existing : Option Position) (r : OpenResult)
    (hok : OpenPosition req account info? p? cached existing = Except.ok r)
    (h0 : 0 ≤ account.balanceUSDT) : 0 ≤ r.account.balanceUSDT := by
  cases info? with
  | none => simp [OpenPosition] at hok
  | some info =>
    cases p? with
    | none => simp [OpenPosition] at hok
    | some p =>
      simp only [OpenPosition] at hok
      split_ifs at hok
      all_goals
        injection hok with h
        subst h
        simp only [executeOpenOrder]
      all_goals try simpa using h0
      all_goals
        simp only [sub_nonneg]
        rename_i hblt _
        exact not_lt.mp hblt

/-- C3 amended.  Market opens preserve `balance ≥ 0` (the InsufficientBalance
guard runs before the deduction); a close credits exactly
`returnedMargin + realisedPnL − fee` with no floor, so a close whose
realised loss plus fee exceeds the returned margin plus the current balance
drives the balance negative. -/
theorem c3_balance_invariant_amended :
    (∀ (s : EngineState) (req : OpenPositionRequest) (info : SymbolInfo) (price : ℚ)
        (cached : Option ℤ),
      0 ≤ s.account.balanceUSDT →
      0 ≤ (engineStep s (EngineOp.openMarket req info price cached)).account.balanceUSDT) ∧
    (∀ (req : ClosePositionRequest) (account : Account) (position : Position) (p : ℚ)
        (r : CloseResult),
      ClosePosition req account (some position) (some p) = Except.ok r →
      r.account.balanceUSDT =
        account.balanceUSDT + position.margin * (r.order.quantity / position.quantity)
          + r.trade.realizedPnL - r.trade.fee) := by
  constructor
  · intro s req info price cached h0
    unfold engineStep
    cases hE : OpenPosition req s.account (some info) (some price) cached
        (lookupPosition s req.symbol req.side) with
    | ok r =>
        simp only [hE]
        exact openPosition_balance_nonneg _ _ _ _ _ _ _ hE h0
    | error e =>
        simp only [hE]
        exact h0
  · intro req account position p r hok
    cases hqo : req.quantity with
    | none =>
      simp only [ClosePosition, hqo] at hok
      injection hok with h
      subst h
      rfl
    | some q =>
      by_cases h1 : 0 < q
      · by_cases h2 : position.quantity < q
        · simp [ClosePosition, hqo, if_pos h1, if_pos h2] at hok
        · simp only [ClosePosition, hqo, if_pos h1, if_neg h2] at hok
          injection hok with h
          subst h
          rfl
      · simp only [ClosePosition, hqo, if_neg h1] at hok
        injection hok with h
        subst h
        rfl

/-- C3 amended witness: both parts instantiated — the S1 open keeps the
balance nonnegative, and S2's close credits exactly
`25.0025 − 0.05 − 0.09999` over the prior balance. -/
theorem c3_balance_invariant_amended_witness :
    0 ≤ (engineStep (EngineState.mk s1Account none)
        (EngineOp.openMarket s1Request s1SymbolInfo 50000 none)).account.balanceUSDT ∧
    s2Result.account.balanceUSDT =
      s2Account.balanceUSDT + s1Position.margin * (s2Result.order.quantity / s1Position.quantity)
        + s2Result.trade.realizedPnL - s2Result.trade.fee := by
  constructor
  · exact c3_balance_invariant_amended.1 (EngineState.mk s1Account none) s1Request
      s1SymbolInfo 50000 none (by with_unfolding_all decide)
  · exact c3_balance_invariant_amended.2 s2Request s2Account s1Position 50000 s2Result
      (by with_unfolding_all rfl)

/-- C4 evaluated at the failing input.  The claim asserts all-or-nothing
persistence; the code performs the five writes of a market open sequentially
with early return and no enclosing transaction.  At scenario S1's open whose
final account-balance write fails, the call reports failure, yet the FILLED
order, the trade and the position persist while the balance deduction is
lost — the resulting store differs from the initial one. -/
theorem c4_partial_write_on_failure :
    OpenPosition s1Request s1Account (some s1SymbolInfo) (some 50000) none none =
      Except.ok s1Result ∧
    (runWrites (marketOpenWrites s1PendingOrder s1Result) (some 4) s1Store).2 = false ∧
    (runWrites (marketOpenWrites s1PendingOrder s1Result) (some 4) s1Store).1 ≠ s1Store ∧
    (runWrites (marketOpenWrites s1PendingOrder s1Result) (some 4) s1Store).1.orders
      = [s1Order] ∧
    (runWrites (marketOpenWrites s1PendingOrder s1Result) (some 4) s1Store).1.trades
      = [s1Trade] ∧
    (runWrites (marketOpenWrites s1PendingOrder s1Result) (some 4) s1Store).1.account
      = s1Account := by
  refine ⟨by with_unfolding_all rfl, by with_unfolding_all rfl,
    by with_unfolding_all decide, by with_unfolding_all rfl,
    by with_unfolding_all rfl, by with_unfolding_all rfl⟩

/-- C6.  Every order created through the Bitget plan-order facade carries a
conditional type (STOP_MARKET or TAKE_PROFIT), is persisted in status NEW
with `filledQty = 0` and its stop price set to the trigger price, and its
creation changes neither the account nor the position — conditional orders
never execute and never open exposure at creation time. -/
theorem c6_conditional_orders_stay_new (req : PlanOrderRequest) (account : Account)
    (position : Option Position) :
    (PlacePlanOrder req account position).1.status = OrderStatus.new ∧
    (PlacePlanOrder req account position).1.filledQty = 0 ∧
    (PlacePlanOrder req account position).1.stopPrice = req.triggerPrice ∧
    ((PlacePlanOrder req account position).1.type = OrderType.stopMarket ∨
      (PlacePlanOrder req account position).1.type = OrderType.takeProfit) ∧
    ((PlacePlanOrder req account position).1.type = OrderType.takeProfit ↔
      req.planType = "profit_plan") ∧
    (PlacePlanOrder req account position).2.1 = account ∧
    (PlacePlanOrder req account position).2.2 = position := by
  refine ⟨rfl, rfl, rfl, ?_, ?_, rfl, rfl⟩
  · by_cases h1 : req.planType = "loss_plan" <;>
      by_cases h2 : req.planType = "profit_plan" <;>
        simp [PlacePlanOrder, createConditionalOrder, h1, h2]
  · by_cases h1 : req.planType = "loss_plan" <;>
      by_cases h2 : req.planType = "profit_plan" <;>
        simp [PlacePlanOrder, createConditionalOrder, h1, h2]

/-- The embedded SHA-256 reproduces the FIPS 180-4 test vector for "abc". -/
theorem sha256_test_vector :
    sha256 [97, 98, 99] =
      [186, 120, 22, 191, 143, 1, 207, 234, 65, 65, 64, 222, 93, 174, 34, 35,
       176, 3, 97, 163, 150, 23, 122, 156, 180, 16, 255, 97, 242, 0, 21, 173] := by
  with_unfolding_all rfl

/-- The embedded HMAC-SHA256 reproduces the RFC test vector for key "key"
and message "The quick brown fox jumps over the lazy dog". -/
theorem hmacSha256_test_vector :
    hmacSha256 [107, 101, 121]
      [84, 104, 101, 32, 113, 117, 105, 99, 107, 32, 98, 114, 111, 119, 110,
       32, 102, 111, 120, 32, 106, 117, 109, 112, 115, 32, 111, 118, 101, 114,
       32, 116, 104, 101, 32, 108, 97, 122, 121, 32, 100, 111, 103] =
      [247, 188, 131, 244, 48, 83, 132, 36, 177, 50, 152, 230, 170, 111, 177,
       67, 239, 77, 89, 161, 73, 70, 23, 89, 151, 71, 157, 188, 45, 26, 60,
       216] := by
  with_unfolding_all rfl

/-- A SHA-256 digest is 32 bytes. -/
theorem sha256_length (msg : Bytes) : (sha256 msg).length = 32 := by
  simp [sha256, wordToBytes]

/-- Base64 of a nonempty byte string is nonempty. -/
theorem base64Encode_ne_nil (l : Bytes) (h : l ≠ []) : base64Encode l ≠ [] := by
  match l with
  | [] => exact absurd rfl h
  | [a] => simp [base64Encode]
  | [a, b] => simp [base64Encode]
  | a :: b :: c :: rest => simp [base64Encode]

/-- An HMAC-SHA256 tag is never empty (it is a 32-byte digest). -/
theorem hmacSha256_ne_nil (key msg : Bytes) : hmacSha256 key msg ≠ [] := by
  intro h
  have h32 : (hmacSha256 key msg).length = 32 := by
    unfold hmacSha256
    exact sha256_length _
  rw [h] at h32
  simp at h32

/-- C9.  For every OKX-facade request with headers present, signature
verification succeeds iff the OK-ACCESS-SIGN header byte-equals
`base64(HMAC_SHA256(secret, timestamp + method + requestPath + body))`,
where `requestPath` includes `?` + rawQuery exactly when a query is present
and the body is included only for POST/PUT — in particular, for S5's POST
with no query, the prehash is `timestamp + "POST" + path + body`. -/
theorem c9_okx_signature_verification (r : OKXRequest) (secret : Bytes) :
    verifyOKXSignature r secret = true ↔
      r.sign = base64Encode (hmacSha256 secret
        (r.timestamp ++ r.method ++
          (if r.rawQuery = [] then r.path else r.path ++ 63 :: r.rawQuery) ++
          (if r.method = postBytes ∨ r.method = putBytes then r.body else []))) := by
  by_cases h : r.sign = []
  · have hfalse : verifyOKXSignature r secret = false := by
      unfold verifyOKXSignature
      simp [h]
    rw [hfalse]
    simp only [Bool.false_eq_true, false_iff]
    intro he
    exact base64Encode_ne_nil _ (hmacSha256_ne_nil _ _) (h ▸ he).symm
  · have hdec : verifyOKXSignature r secret =
        decide (r.sign = base64Encode (hmacSha256 secret (okxPrehash r))) := by
      unfold verifyOKXSignature
      simp [h]
    rw [hdec, decide_eq_true_iff]
    unfold okxPrehash okxRequestPath okxBody
    exact Iff.rfl

end CcxtSim

